import Mathlib

/-!
Shallow embedding of the PersonalPlayer queue/playback core.

The repository holds two parallel implementations of the queue and the
controller: the refactored module `PersonalPlayer/audio.py` (namespace
`Audio` below) and the older inline copy in `PersonalPlayer/__main__.py`
(namespace `Main` below).  Pure functions are translated directly; the
stateful controller is modelled by explicit state passing, with a list of
transport calls recording every interaction with the voice client, and
raised Python exceptions modelled as explicit error values returned with
the (unchanged) state at the point of the raise.
-/

namespace Audio

/-- A resolved media item, as built by `Song.__init__` in `audio.py` from the
extractor payload: every field comes from `dict.get` and may be absent. -/
structure Song where
  id : Option String
  title : Option String
  url : Option String
  ext : Option String
deriving DecidableEq

/-- The `Playlist._queue` list of `audio.py`: a plain list of songs, the head
being the currently playing one once playback has started. -/
abbrev Queue := List Song

/-- `Playlist.current`: returns `self._queue[0]`, or `None` when the
`IndexError` is caught on an empty list. -/
def current (q : Queue) : Option Song :=
  q.head?

/-- `Playlist.next`: `self._queue.pop(0)` then `return self._queue[0]`, with
`IndexError` caught and turned into `None`.  On `[]` the pop itself raises, so
the queue is untouched; on `[a]` the pop succeeds and the indexing raises, so
the element is still removed.  Returns the result and the new queue. -/
def nextSong (q : Queue) : Option Song × Queue :=
  match q with
  | [] => (none, [])
  | _ :: rest => (rest.head?, rest)

/-- `Playlist.titles`: `[str(song) for song in self._queue]`; `Song.__str__`
in `audio.py` returns the raw `title` attribute. -/
def titles (q : Queue) : List (Option String) :=
  q.map (fun song => song.title)

/-- Structured resolver failure, per the spec's `ResolveError` kinds. -/
inductive ResolveError
  | notFound
  | networkFailure
  | unsupportedSource
deriving DecidableEq

/-- `Playlist.add`: `songs = self._download(query)` then
`self._queue.extend(songs)`; a resolver failure raises before the extend, so
the queue is untouched.  The external `yt_dlp` download is abstracted as the
`resolve` argument. -/
def playlistAdd (resolve : String → Except ResolveError (List Song))
    (q : Queue) (query : String) : Except ResolveError (Queue × List Song) :=
  match resolve query with
  | .error e => .error e
  | .ok songs => .ok (q ++ songs, songs)

/-- State of the guild's voice client, as the controller observes it:
`is_playing()` is true exactly in the `playing` state (a paused client is not
playing). -/
inductive VCState
  | idle
  | playing
  | paused
deriving DecidableEq

/-- The mutable fields of one `AudioController` (with its owned `Playlist`):
the queue list, `self._now_playing`, and the transport state. -/
structure CState where
  queue : Queue
  nowPlaying : Option Song
  vc : VCState
deriving DecidableEq

/-- One call issued to the voice transport. -/
inductive TCall
  | start (song : Song)
  | stop
  | pause
  | resume
deriving DecidableEq

/-- An error raised mid-playback and handed to the completion callback. -/
structure TransportError where
  code : Nat
deriving DecidableEq

/-- An exception escaping `play_next`. -/
inductive PlayerError
  | transport (e : TransportError)
  | queueEmpty
deriving DecidableEq

/-- Result of running one controller step: the raised exception if any (the
state and call list then reflect everything done before the raise), the
resulting state, and the transport calls issued. -/
structure Step where
  err : Option PlayerError
  st : CState
  calls : List TCall
deriving DecidableEq

/-- `AudioController.play_song`: sets `self._now_playing = song` and calls
`voice_client.play(...)` with `play_next` installed as the after-callback. -/
def playSong (st : CState) (song : Song) : CState × List TCall :=
  ({ st with nowPlaying := some song, vc := .playing }, [TCall.start song])

/-- `AudioController.play_next(error)`: re-raises a passed error first; with
`_now_playing` unset it starts the queue head via `playlist.current` (raising
`RuntimeError` on an empty queue); otherwise it advances with
`playlist.next`, going idle when nothing remains and starting the revealed
song when one does.  The `create_task(play_song(...))` is modelled as the
scheduled task having run. -/
def playNext (error : Option TransportError) (st : CState) : Step :=
  match error with
  | some e => ⟨some (.transport e), st, []⟩
  | none =>
    match st.nowPlaying with
    | none =>
      match current st.queue with
      | none => ⟨some .queueEmpty, st, []⟩
      | some song =>
        let started := playSong st song
        ⟨none, started.1, started.2⟩
    | some _ =>
      let popped := nextSong st.queue
      match popped.1 with
      | none => ⟨none, { st with queue := popped.2, nowPlaying := none }, []⟩
      | some song =>
        let started := playSong { st with queue := popped.2 } song
        ⟨none, started.1, started.2⟩

/-- `voice_client.stop()` under the transport contract of the spec: when a
source is active the transport stops streaming and invokes the installed
after-callback (`play_next`) with no error; on an idle transport it is a
no-op. -/
def transportStop (st : CState) : Step :=
  if st.vc = .idle then
    ⟨none, st, [TCall.stop]⟩
  else
    let s := playNext none { st with vc := .idle }
    ⟨s.err, s.st, TCall.stop :: s.calls⟩

/-- `AudioController.skip`: `voice_client.stop()` (whose contract fires the
completion callback) followed by a direct second call to `play_next()`. -/
def skip (st : CState) : Step :=
  let s1 := transportStop st
  match s1.err with
  | some _ => s1
  | none =>
    let s2 := playNext none s1.st
    ⟨s2.err, s2.st, s1.calls ++ s2.calls⟩

/-- The `QueueState` enum reported by `add_songs`. -/
inductive QueueState
  | NOW_PLAYING
  | QUEUED
deriving DecidableEq

/-- An exception escaping `add_songs`. -/
inductive AddError
  | resolve (e : ResolveError)
  | player (e : PlayerError)
deriving DecidableEq

/-- Result of `add_songs`: raised exception if any, resulting state,
transport calls, reported status (absent when an exception propagated), and
the newly resolved songs (empty when resolution itself failed). -/
structure AddStep where
  err : Option AddError
  st : CState
  calls : List TCall
  status : Option QueueState
  songs : List Song
deriving DecidableEq

/-- `AudioController.add_songs`: resolves and appends via `playlist.add`,
then — only when `voice_client.is_playing()` is false — calls `play_next()`
and reports `NOW_PLAYING`; otherwise reports `QUEUED` with no transport
interaction. -/
def addSongs (resolve : String → Except ResolveError (List Song))
    (st : CState) (query : String) : AddStep :=
  match playlistAdd resolve st.queue query with
  | .error e => ⟨some (.resolve e), st, [], none, []⟩
  | .ok res =>
    let st1 := { st with queue := res.1 }
    if st1.vc = .playing then
      ⟨none, st1, [], some .QUEUED, res.2⟩
    else
      let s := playNext none st1
      match s.err with
      | some e => ⟨some (.player e), s.st, s.calls, none, res.2⟩
      | none => ⟨none, s.st, s.calls, some .NOW_PLAYING, res.2⟩

/-- `AudioController.pause`: when `is_playing()` the transport is paused and
`True` is returned; otherwise `resume()` is called (resuming a paused
transport, a no-op on an idle one) and `False` is returned. -/
def pauseOp (st : CState) : CState × List TCall × Bool :=
  if st.vc = .playing then
    ({ st with vc := .paused }, [TCall.pause], true)
  else
    ({ st with vc := if st.vc = .paused then .playing else st.vc },
     [TCall.resume], false)

/-- `AudioController.stop`: when `is_playing()` the transport is *paused*
(`vc.pause()`, not `vc.stop()`), then `playlist.clear()` empties the queue;
`self._now_playing` is never touched. -/
def stopOp (st : CState) : CState × List TCall :=
  if st.vc = .playing then
    ({ st with vc := .paused, queue := [] }, [TCall.pause])
  else
    ({ st with queue := [] }, [])

/-- `Playlist.remove`: `self._queue.pop(index)` with Python `list.pop`
semantics — a negative index counts from the end, and an out-of-range index
raises `IndexError`, modelled as `none`. -/
def removeAt (q : Queue) (i : Int) : Option Queue :=
  let L : Int := q.length
  let j : Int := if i < 0 then i + L else i
  if 0 ≤ j ∧ j < L then some (q.eraseIdx j.toNat) else none

/-- A fresh playlist's queue (`Playlist.__init__` in `audio.py`). -/
def freshQueue : Queue := []

/-- Iterated `Playlist.next` calls, keeping only the queue. -/
def advanceTimes : Nat → Queue → Queue
  | 0, q => q
  | n + 1, q => advanceTimes n (nextSong q).2

/-- Command-level precondition failures raised by the `is_playing()` check
in `__main__.py` before a guarded command body runs. -/
inductive CmdError
  | NotConnected
  | NotPlaying
deriving DecidableEq

/-- The `/pause` slash command: the `is_playing()` check raises
`NotConnected` when no voice client exists and `NotPlaying` when the client
is not actively playing; only then does `AudioController.pause` run. -/
def pauseCommand (connected : Bool) (st : CState) :
    Except CmdError (CState × List TCall × Bool) :=
  if !connected then .error .NotConnected
  else if st.vc ≠ .playing then .error .NotPlaying
  else .ok (pauseOp st)

end Audio

namespace Main

/-- The `Song` of `__main__.py`: built from the extractor payload via
`dict.get`, so every attribute may be `None`; this copy also keeps
`channel` and `artist`. -/
structure Song where
  id : Option String
  title : Option String
  url : Option String
  ext : Option String
  channel : Option String
  artist : Option String
deriving DecidableEq

/-- Python `str(x)` applied to an optional string: `str(None)` is the
(truthy) string `"None"`. -/
def pyStr : Option String → String
  | none => "None"
  | some s => s

/-- Python `a or b` on optional strings: a falsy left value (`None` or the
empty string) selects the right one. -/
def pyOr : Option String → Option String → Option String
  | some s, b => if s = "" then b else some s
  | none, b => b

/-- Whether the first character list occurs as a contiguous run at the very
front of the second (Python string containment, helper). -/
def charsStartWith : List Char → List Char → Bool
  | [], _ => true
  | _ :: _, [] => false
  | a :: as, b :: bs => a = b && charsStartWith as bs

/-- Whether the first character list occurs contiguously anywhere inside the
second one. -/
def charsContain : List Char → List Char → Bool
  | sub, [] => sub.isEmpty
  | sub, b :: bs => charsStartWith sub (b :: bs) || charsContain sub bs

/-- Python `sub in s` on strings: contiguous substring containment. -/
def pyIn (sub s : String) : Bool :=
  charsContain sub.data s.data

/-- `Song.__str__` of `__main__.py`:
`title = str(self.title) or 'Unknown title'`, then
`source = self.artist or self.channel`, and when `source` is not `None` and
`source not in title`, the result is `f'\x7bsource\x7d - \x7btitle\x7d'`. -/
def Song.str (song : Song) : String :=
  let title0 := pyStr song.title
  let title := if title0 = "" then "Unknown title" else title0
  match pyOr song.artist song.channel with
  | none => title
  | some source => if pyIn source title then title else source ++ " - " ++ title

/-- The `Playlist._queue` of `__main__.py`: entries are either the `None`
dummy sentinel or a song. -/
abbrev MQueue := List (Option Song)

/-- The queue update of `Playlist.add` in `__main__.py`:
`self._queue.append(*songs)`.  Python's `list.append` takes exactly one
positional argument, so unpacking a list of any other length raises
`TypeError`, modelled as `none`. -/
def appendStar (q : MQueue) (songs : List Song) : Option MQueue :=
  match songs with
  | [song] => some (q ++ [some song])
  | _ => none

end Main

/-- Fixture: a resolved track used in concrete runs. -/
def songA : Audio.Song :=
  { id := some ("a1"), title := some ("Song A"), url := none, ext := some ("webm") }

/-- Fixture: a second resolved track. -/
def songB : Audio.Song :=
  { id := some ("b2"), title := some ("Song B"), url := none, ext := some ("webm") }

/-- Fixture: a third resolved track. -/
def songC : Audio.Song :=
  { id := some ("c3"), title := some ("Song C"), url := none, ext := some ("webm") }

/-- Fixture: a resolver that resolves every query to the single track
`songA`. -/
def resolveOne : String → Except Audio.ResolveError (List Audio.Song) :=
  fun _ => .ok [songA]

/-- Fixture: a resolver that always fails with a not-found error. -/
def resolveFail : String → Except Audio.ResolveError (List Audio.Song) :=
  fun _ => .error .notFound

/-- Fixture: a `__main__.py` song whose payload had no title, artist or
channel. -/
def mSongNoTitle : Main.Song :=
  { id := some ("x1"), title := none, url := none, ext := none,
    channel := none, artist := none }

/-- Fixture: a `__main__.py` song with a title and an artist not contained
in it. -/
def mSongWithArtist : Main.Song :=
  { id := some ("x2"), title := some ("Thunderstruck"), url := none,
    ext := none, channel := none, artist := some ("ACDC") }

/-- Fixture: a `__main__.py` song whose title already contains the
attribution. -/
def mSongSelfTitled : Main.Song :=
  { id := some ("x3"), title := some ("ACDC - Thunderstruck"), url := none,
    ext := none, channel := none, artist := some ("ACDC") }

/-- Fixture: a first `__main__.py` track of a resolved two-track playlist. -/
def mSongOne : Main.Song :=
  { id := some ("p1"), title := some ("Part 1"), url := none, ext := none,
    channel := none, artist := none }

/-- Fixture: the second track of a resolved two-track playlist. -/
def mSongTwo : Main.Song :=
  { id := some ("p2"), title := some ("Part 2"), url := none, ext := none,
    channel := none, artist := none }

/-- C1: running `skip()` on a Playing session with queue `[A, B, C]` (A
current). The transport-stop's after-callback advances to and starts B, and
then `skip`'s own direct `play_next()` call advances again and starts C: two
advance-and-start decisions and two transport-start calls, where the claim
allows exactly one. -/
theorem skip_double_advance_run :
    Audio.skip ⟨[songA, songB, songC], some songA, .playing⟩ =
      ⟨none, ⟨[songC], some songC, .playing⟩,
       [Audio.TCall.stop, Audio.TCall.start songB, Audio.TCall.start songC]⟩ := by
  rfl

/-- C2 counterexample: `stop()` on a Playing session neither clears the
currently-playing track nor leaves the transport stopped — the session is
left Paused with `now_playing` still set, so it is not Idle as claimed. -/
theorem stop_not_idle_counterexample :
    ¬ ((Audio.stopOp ⟨[songA], some songA, .playing⟩).1.nowPlaying = none ∧
       (Audio.stopOp ⟨[songA], some songA, .playing⟩).1.vc = Audio.VCState.idle) := by
  decide

/-- C2 amended: for every session state, `stop()` removes all pending tracks
(`titles()` afterwards is empty), but the transport is merely paused (one
pause call) when it was playing — otherwise untouched — and the
currently-playing field is left unchanged, so a Playing session ends up
Paused, not Idle. -/
theorem stop_clears_queue_pauses_transport (st : Audio.CState) :
    (Audio.stopOp st).1.queue = [] ∧
    (Audio.stopOp st).1.nowPlaying = st.nowPlaying ∧
    (Audio.stopOp st).1.vc
      = (if st.vc = .playing then Audio.VCState.paused else st.vc) ∧
    (Audio.stopOp st).2
      = (if st.vc = .playing then [Audio.TCall.pause] else []) ∧
    Audio.titles (Audio.stopOp st).1.queue = [] := by
  by_cases h : st.vc = .playing <;> simp [Audio.stopOp, Audio.titles, h]

/-- Iterated advancing only ever drops elements from the front. -/
theorem advanceTimes_eq_drop (n : Nat) (q : Audio.Queue) :
    Audio.advanceTimes n q = q.drop n := by
  induction n generalizing q with
  | zero => simp [Audio.advanceTimes]
  | succ n ih =>
    cases q with
    | nil => simp [Audio.advanceTimes, Audio.nextSong, ih]
    | cons a r => simp [Audio.advanceTimes, Audio.nextSong, ih]

/-- C3: enqueuing any N tracks into a fresh queue and advancing exactly N
times leaves the queue empty with `current()` empty, and a further
`advance()` returns empty without erroring and leaves the queue empty. -/
theorem queue_balance_exhaustion (songs : List Audio.Song) :
    Audio.advanceTimes songs.length (Audio.freshQueue ++ songs) = [] ∧
    Audio.current (Audio.advanceTimes songs.length (Audio.freshQueue ++ songs))
      = none ∧
    Audio.nextSong (Audio.advanceTimes songs.length (Audio.freshQueue ++ songs))
      = (none, []) := by
  have h : Audio.advanceTimes songs.length (Audio.freshQueue ++ songs) = [] := by
    rw [advanceTimes_eq_drop]
    simp [Audio.freshQueue]
  rw [h]
  exact ⟨rfl, rfl, rfl⟩

/-- C4: enqueuing into an Idle session (empty queue, nothing current,
transport idle) a query resolving to one or more tracks transitions the
session to Playing, issues exactly one transport-start call whose argument is
the first newly added track, and reports `NOW_PLAYING`. -/
theorem idle_enqueue_starts_playback
    (resolve : String → Except Audio.ResolveError (List Audio.Song))
    (st : Audio.CState) (query : String) (s : Audio.Song)
    (rest : List Audio.Song)
    (hq : st.queue = []) (hnp : st.nowPlaying = none) (hvc : st.vc = .idle)
    (hres : resolve query = .ok (s :: rest)) :
    Audio.addSongs resolve st query =
      ⟨none, ⟨s :: rest, some s, .playing⟩, [Audio.TCall.start s],
       some .NOW_PLAYING, s :: rest⟩ := by
  obtain ⟨q, np, vc⟩ := st
  simp only at hq hnp hvc
  subst hq; subst hnp; subst hvc
  simp [Audio.addSongs, Audio.playlistAdd, hres, Audio.playNext, Audio.current,
    Audio.playSong]

/-- C4 witness: a concrete Idle session and a resolver yielding one track. -/
theorem idle_enqueue_starts_playback_witness :
    Audio.addSongs resolveOne ⟨[], none, .idle⟩ ("query a") =
      ⟨none, ⟨[songA], some songA, .playing⟩, [Audio.TCall.start songA],
       some .NOW_PLAYING, [songA]⟩ := by
  exact idle_enqueue_starts_playback resolveOne ⟨[], none, .idle⟩ ("query a")
    songA [] rfl rfl rfl rfl

/-- C5: invoking the completion callback with a non-empty error re-raises
that same error to the caller before anything else: the session state is
returned unchanged, no advance happens, and no transport call is issued. -/
theorem playNext_error_reraises (e : Audio.TransportError) (st : Audio.CState) :
    Audio.playNext (some e) st = ⟨some (.transport e), st, []⟩ := by
  rfl

/-- C6: `__main__.py`'s `Playlist.add` performs `self._queue.append(*songs)`;
unpacking a resolved two-track playlist raises `TypeError` (nothing is
appended), while a single track is appended — so enqueue is not total over
playlists, contrary to the claim. -/
theorem main_add_append_star_typeerror :
    Main.appendStar [none] [mSongOne, mSongTwo] = none ∧
    Main.appendStar [none] [mSongOne] = some [none, some mSongOne] := by
  exact ⟨rfl, rfl⟩

/-- C7: when resolution fails with a `ResolveError`, the enqueue attempt
aborts entirely: the error is surfaced, the session state is returned
unchanged (no tracks added, current track and status untouched), and no
transport call is made. -/
theorem resolve_error_aborts_enqueue
    (resolve : String → Except Audio.ResolveError (List Audio.Song))
    (st : Audio.CState) (query : String) (e : Audio.ResolveError)
    (hres : resolve query = .error e) :
    Audio.addSongs resolve st query = ⟨some (.resolve e), st, [], none, []⟩ := by
  simp [Audio.addSongs, Audio.playlistAdd, hres]

/-- C7 witness: a failing resolver against a concrete Playing session. -/
theorem resolve_error_aborts_enqueue_witness :
    Audio.addSongs resolveFail ⟨[songA], some songA, .playing⟩ ("query b") =
      ⟨some (.resolve .notFound), ⟨[songA], some songA, .playing⟩, [],
       none, []⟩ := by
  exact resolve_error_aborts_enqueue resolveFail ⟨[songA], some songA, .playing⟩
    ("query b") .notFound rfl

/-- C8: `pause()` on a Playing session returns true with exactly one
transport-pause call; `pause()` again on the now-Paused session returns false
with a transport-resume call; and the `/pause` command on an Idle session
(connected, nothing active) fails the `is_playing()` precondition with
`NotPlaying` instead of being silently accepted. -/
theorem pause_toggle_and_idle_guard (st stI : Audio.CState)
    (h : st.vc = .playing) (hI : stI.vc = .idle) :
    Audio.pauseOp st = ({ st with vc := .paused }, [Audio.TCall.pause], true) ∧
    Audio.pauseOp { st with vc := .paused }
      = ({ st with vc := .playing }, [Audio.TCall.resume], false) ∧
    Audio.pauseCommand true stI = .error Audio.CmdError.NotPlaying := by
  refine ⟨?_, ?_, ?_⟩
  · simp [Audio.pauseOp, h]
  · simp [Audio.pauseOp]
  · simp [Audio.pauseCommand, hI]

/-- C8 witness: the toggle on a concrete Playing session and the guard on a
concrete Idle session. -/
theorem pause_toggle_and_idle_guard_witness :
    Audio.pauseOp ⟨[songA], some songA, .playing⟩
      = (⟨[songA], some songA, .paused⟩, [Audio.TCall.pause], true) ∧
    Audio.pauseOp ⟨[songA], some songA, .paused⟩
      = (⟨[songA], some songA, .playing⟩, [Audio.TCall.resume], false) ∧
    Audio.pauseCommand true ⟨[], none, .idle⟩
      = .error Audio.CmdError.NotPlaying := by
  exact pause_toggle_and_idle_guard ⟨[songA], some songA, .playing⟩
    ⟨[], none, .idle⟩ rfl rfl

/-- C9: `Song.__str__` computes `str(self.title) or 'Unknown title'`, and
`str(None)` is the truthy string `"None"`, so a song with an absent title
displays as `"None"`, never as the claimed `"Unknown title"` placeholder;
the attribution merging itself behaves as claimed on present titles. -/
theorem song_str_none_title_run :
    Main.Song.str mSongNoTitle = "None" ∧
    Main.Song.str mSongNoTitle ≠ "Unknown title" ∧
    Main.Song.str mSongWithArtist = "ACDC - Thunderstruck" ∧
    Main.Song.str mSongSelfTitled = "ACDC - Thunderstruck" := by
  refine ⟨rfl, by decide, rfl, rfl⟩

/-- C10: `remove` delegates to Python `list.pop`, so removal fails with an
index-out-of-range error exactly when `i >= L` or `i < -L`, and an in-range
negative index `-k` removes the k-th track counting from the end, leaving the
others in order. -/
theorem removeAt_neg_spec (q : Audio.Queue) (i : Int) :
    (Audio.removeAt q i = none
      ↔ ((q.length : Int) ≤ i ∨ i < -(q.length : Int))) ∧
    (∀ k : Nat, 1 ≤ k → k ≤ q.length →
      Audio.removeAt q (-(k : Int)) = some (q.eraseIdx (q.length - k))) := by
  constructor
  · simp only [Audio.removeAt]
    by_cases hi : i < 0
    · by_cases hr : 0 ≤ i + (q.length : Int) ∧ i + (q.length : Int) < (q.length : Int)
      · simp [hi, hr]
        omega
      · simp [hi, hr]
        omega
    · by_cases hr : 0 ≤ i ∧ i < (q.length : Int)
      · simp [hi, hr]
        omega
      · simp [hi, hr]
        omega
  · intro k hk1 hk2
    simp only [Audio.removeAt]
    have hneg : -(k : Int) < 0 := by omega
    have hr : 0 ≤ -(k : Int) + (q.length : Int) ∧
        -(k : Int) + (q.length : Int) < (q.length : Int) := by omega
    simp [hneg, hr]
    have ht : (-(k : Int) + (q.length : Int)).toNat = q.length - k := by omega
    rw [ht]

/-- C10 witness: removing at index -1 from an empty queue fails, and on the
three-track queue an in-range negative index removes the second-from-last
track, keeping the rest in order. -/
theorem removeAt_neg_witness :
    Audio.removeAt ([] : Audio.Queue) (-(1 : Int)) = none ∧
    1 ≤ 2 ∧ 2 ≤ ([songA, songB, songC] : Audio.Queue).length ∧
    Audio.removeAt [songA, songB, songC] (-(2 : Int)) = some [songA, songC] := by
  refine ⟨?_, by decide, by decide, ?_⟩
  · exact (removeAt_neg_spec ([] : Audio.Queue) (-(1 : Int))).1.mpr (by decide)
  · exact (removeAt_neg_spec [songA, songB, songC] 5).2 2 (by decide) (by decide)
